import Mathlib

/-!
# Verification of the popup widget (src/popup.rs)

Shallow embedding of the popup lifecycle engine of the rg3d UI library:
the open/close state machine, the placement resolver, the picking-restriction
stack protocol, the content reparenting protocol, click-outside dismissal,
deep copy, graph-remap fix-up and the builder.

Coordinates (`f32` in the source) are modelled as exact rationals; arena
handles (`Handle<UINode<M,C>>`) as natural numbers with `0` playing the role
of `Handle::NONE`.  The generic widget base and the UI manager are external
collaborators (spec §2/§6); the members the popup code calls on them are
modelled as plain state updates, each additionally recorded in an operation
trace so that claims about "exactly one push/pop/remove/link call" and about
the order of effects can be stated.
-/

namespace Rg3d

/-- 2-D vector (`rg3d_core::math::vec2::Vec2`, `f32` fields modelled as `ℚ`). -/
structure Vec2 where
  x : ℚ
  y : ℚ
deriving DecidableEq, Repr

/-- Embeds `Vec2::ZERO`. -/
def Vec2.ZERO : Vec2 := ⟨0, 0⟩

/-- Componentwise subtraction (`Vec2 - Vec2` in the source). -/
def Vec2.sub (a b : Vec2) : Vec2 := ⟨a.x - b.x, a.y - b.y⟩

/-- Embeds `Vec2::scale`, componentwise multiplication by a scalar. -/
def Vec2.scale (a : Vec2) (k : ℚ) : Vec2 := ⟨a.x * k, a.y * k⟩

/-- Axis-aligned rectangle (`rg3d_core::math::Rect`), external collaborator. -/
structure Rect where
  x : ℚ
  y : ℚ
  w : ℚ
  h : ℚ
deriving DecidableEq, Repr

/-- Embeds `Rect::contains(pt_x, pt_y)`: closed-rectangle membership test. -/
def Rect.contains (r : Rect) (px py : ℚ) : Bool :=
  decide (r.x ≤ px) && decide (px ≤ r.x + r.w) &&
  decide (r.y ≤ py) && decide (py ≤ r.y + r.h)

/-- Arena handle; `0` models `Handle::NONE` (the `Default` handle). -/
def Handle.NONE : Nat := 0

/-- Embeds `Handle::is_some()`: the handle is not `Handle::NONE`. -/
def Handle.is_some (h : Nat) : Bool := decide (h ≠ Handle.NONE)

/-- Embeds `Placement` enum of popup.rs (lines 26-35). -/
inductive Placement where
  | LeftTop
  | RightTop
  | Center
  | LeftBottom
  | RightBottom
  | Cursor
  | Position (p : Vec2)
deriving DecidableEq, Repr

/-- The one widget message the popup sends (`WidgetMessage::TopMost`). -/
inductive WidgetMessage where
  | TopMost
deriving DecidableEq, Repr

/-- Embeds `PopupMessage` routed-message payloads. -/
inductive PopupMessage where
  | Open
  | Close
  | Content (content : Nat)
  | Placement (placement : Rg3d.Placement)
deriving DecidableEq, Repr

/-- Embeds `UiMessageData`: the payload variants the popup code constructs or matches. -/
inductive UiMessageData where
  | Widget (m : WidgetMessage)
  | Popup (m : PopupMessage)
deriving DecidableEq, Repr

/-- Embeds `UiMessage`: payload, destination handle, handled flag. -/
structure UiMessage where
  data : UiMessageData
  destination : Nat
  handled : Bool
deriving DecidableEq, Repr

/-- Trace entries for calls the popup makes on its own widget base. -/
inductive WidgetOp where
  | SetVisibility (value : Bool)
  | InvalidateLayout
  | SendMessage (m : UiMessage)
  | SetDesiredLocalPosition (p : Vec2)
deriving DecidableEq, Repr

/-- The generic widget base (external collaborator, spec §6): only the members
the popup code actually touches are modelled, together with a trace of the
calls made on it. -/
structure Widget where
  handle : Nat
  visibility : Bool
  actual_size : Vec2
  desired_local_position : Vec2
  screen_bounds : Rect
  layout_valid : Bool
  children : List Nat
  trace : List WidgetOp
deriving DecidableEq, Repr

/-- Embeds `Widget::set_visibility`. -/
def Widget.set_visibility (w : Widget) (value : Bool) : Widget :=
  { w with visibility := value, trace := w.trace ++ [WidgetOp.SetVisibility value] }

/-- Embeds `Widget::invalidate_layout`. -/
def Widget.invalidate_layout (w : Widget) : Widget :=
  { w with layout_valid := false, trace := w.trace ++ [WidgetOp.InvalidateLayout] }

/-- Embeds `Widget::send_message`: enqueue a message through the widget's sender. -/
def Widget.send_message (w : Widget) (m : UiMessage) : Widget :=
  { w with trace := w.trace ++ [WidgetOp.SendMessage m] }

/-- Embeds `Widget::set_desired_local_position`. -/
def Widget.set_desired_local_position (w : Widget) (p : Vec2) : Widget :=
  { w with desired_local_position := p,
           trace := w.trace ++ [WidgetOp.SetDesiredLocalPosition p] }

/-- Embeds `Widget::raw_copy` (external): copies the widget record. -/
def Widget.raw_copy (w : Widget) : Widget := w

/-- The popup entity (popup.rs lines 37-44). -/
structure Popup where
  widget : Widget
  placement : Placement
  stays_open : Bool
  is_open : Bool
  content : Nat
  body : Nat
deriving DecidableEq, Repr

/-- Embeds `UINode`: the node variants this development needs (`UINode::Popup` plus
the border node produced by `BorderBuilder`). -/
inductive UINode where
  | Popup (p : Rg3d.Popup)
  | Border (child : Nat)
deriving DecidableEq, Repr

/-- Trace entries for calls the popup makes on the UI manager. -/
inductive UiOp where
  | PushPickingRestriction (h : Nat)
  | PopPickingRestriction
  | RemoveNode (h : Nat)
  | LinkNodes (child parent : Nat)
  | ReleaseMouseCapture
  | AddBorderNode (h : Nat) (child : Nat)
  | AddPopupNode (h : Nat)
  | FlushMessages
deriving DecidableEq, Repr

/-- The UI manager (external collaborator, spec §6): screen/cursor state, the
picking-restriction stack (head = top), the capture slot, the node arena,
and a trace of the calls made on it. -/
structure UserInterface where
  screen_size : Vec2
  cursor_position : Vec2
  picking_stack : List Nat
  captured_node : Nat
  next_handle : Nat
  nodes : List (Nat × UINode)
  trace : List UiOp
deriving DecidableEq, Repr

/-- Embeds `UserInterface::top_picking_restriction`: top of the stack, or
`Handle::NONE` when the stack is empty. -/
def UserInterface.top_picking_restriction (ui : UserInterface) : Nat :=
  ui.picking_stack.headD Handle.NONE

/-- Embeds `UserInterface::push_picking_restriction`. -/
def UserInterface.push_picking_restriction (ui : UserInterface) (h : Nat) : UserInterface :=
  { ui with picking_stack := h :: ui.picking_stack,
            trace := ui.trace ++ [UiOp.PushPickingRestriction h] }

/-- Embeds `UserInterface::pop_picking_restriction`: drops the top entry (no-op on an
empty stack, like `Vec::pop`). -/
def UserInterface.pop_picking_restriction (ui : UserInterface) : UserInterface :=
  { ui with picking_stack := ui.picking_stack.tail,
            trace := ui.trace ++ [UiOp.PopPickingRestriction] }

/-- Embeds `UserInterface::remove_node`. -/
def UserInterface.remove_node (ui : UserInterface) (h : Nat) : UserInterface :=
  { ui with nodes := ui.nodes.filter (fun e => e.1 ≠ h),
            trace := ui.trace ++ [UiOp.RemoveNode h] }

/-- Embeds `UserInterface::link_nodes(child, parent)`. -/
def UserInterface.link_nodes (ui : UserInterface) (child parent : Nat) : UserInterface :=
  { ui with trace := ui.trace ++ [UiOp.LinkNodes child parent] }

/-- Embeds `UserInterface::release_mouse_capture`. -/
def UserInterface.release_mouse_capture (ui : UserInterface) : UserInterface :=
  { ui with captured_node := Handle.NONE,
            trace := ui.trace ++ [UiOp.ReleaseMouseCapture] }

/-- Embeds `UserInterface::flush_messages`: drains the queue (external effect; only
its occurrence is recorded). -/
def UserInterface.flush_messages (ui : UserInterface) : UserInterface :=
  { ui with trace := ui.trace ++ [UiOp.FlushMessages] }

/-- Embeds `ButtonState` of the raw OS event. -/
inductive ButtonState where
  | Pressed
  | Released
deriving DecidableEq, Repr

/-- Embeds `OsEvent`: mouse-button input carrying a button state; `Other` stands for
every other raw event variant (cursor moves, keys, ...). -/
inductive OsEvent where
  | MouseInput (state : ButtonState)
  | Other
deriving DecidableEq, Repr

/-- Embeds `Popup::raw_copy` (popup.rs lines 61-70). -/
def Popup.raw_copy (self : Popup) : UINode :=
  UINode.Popup
    { widget := self.widget.raw_copy
      placement := self.placement
      stays_open := false
      is_open := false
      content := self.content
      body := self.body }

/-- Embeds `Popup::resolve` (popup.rs lines 72-77): remap `content` when the table
has it, then remap `body` through `.unwrap()` — `none` models the panic when
`body` is absent from the table. -/
def Popup.resolve (self : Popup) (node_map : Nat → Option Nat) : Option Popup :=
  let self :=
    match node_map self.content with
    | some content => { self with content := content }
    | none => self
  match node_map self.body with
  | some body => some { self with body := body }
  | none => none

/-- Embeds `Popup::handle_routed_message` (popup.rs lines 79-160). -/
def Popup.handle_routed_message (self : Popup) (ui : UserInterface)
    (message : UiMessage) : Popup × UserInterface :=
  match message.data with
  | UiMessageData.Popup msg =>
    if message.destination = self.widget.handle then
      match msg with
      | PopupMessage.Open =>
        let self := { self with is_open := true }
        let self := { self with widget := self.widget.set_visibility true }
        let ui :=
          if !self.stays_open then
            if ui.top_picking_restriction ≠ self.widget.handle then
              ui.push_picking_restriction self.widget.handle
            else ui
          else ui
        let topmost : UiMessage :=
          ⟨UiMessageData.Widget WidgetMessage.TopMost, self.widget.handle, false⟩
        let self := { self with widget := self.widget.send_message topmost }
        let self :=
          match self.placement with
          | Placement.LeftTop =>
            { self with widget := self.widget.set_desired_local_position Vec2.ZERO }
          | Placement.RightTop =>
            let width := self.widget.actual_size.x
            let screen_width := ui.screen_size.x
            let pos : Vec2 := ⟨screen_width - width, 0⟩
            { self with widget := self.widget.set_desired_local_position pos }
          | Placement.Center =>
            let size := self.widget.actual_size
            let screen_size := ui.screen_size
            let pos := (screen_size.sub size).scale (1/2)
            { self with widget := self.widget.set_desired_local_position pos }
          | Placement.LeftBottom =>
            let height := self.widget.actual_size.y
            let screen_height := ui.screen_size.y
            let pos : Vec2 := ⟨0, screen_height - height⟩
            { self with widget := self.widget.set_desired_local_position pos }
          | Placement.RightBottom =>
            let size := self.widget.actual_size
            let screen_size := ui.screen_size
            let pos := screen_size.sub size
            { self with widget := self.widget.set_desired_local_position pos }
          | Placement.Cursor =>
            let pos := ui.cursor_position
            { self with widget := self.widget.set_desired_local_position pos }
          | Placement.Position position =>
            { self with widget := self.widget.set_desired_local_position position }
        (self, ui)
      | PopupMessage.Close =>
        let self := { self with is_open := false }
        let self := { self with widget := self.widget.set_visibility false }
        let ui := if !self.stays_open then ui.pop_picking_restriction else ui
        let ui :=
          if ui.captured_node = self.widget.handle then ui.release_mouse_capture
          else ui
        (self, ui)
      | PopupMessage.Content content =>
        let ui :=
          if Handle.is_some self.content then ui.remove_node self.content else ui
        let self := { self with content := content }
        let ui := ui.link_nodes self.content self.body
        (self, ui)
      | PopupMessage.Placement placement =>
        let self := { self with placement := placement }
        ({ self with widget := self.widget.invalidate_layout }, ui)
    else (self, ui)
  | _ => (self, ui)

/-- Embeds `Popup::close` (popup.rs lines 186-195). -/
def Popup.close (self : Popup) : Popup :=
  if self.is_open then
    let self := { self with widget := self.widget.invalidate_layout }
    let msg : UiMessage :=
      ⟨UiMessageData.Popup PopupMessage.Close, self.widget.handle, false⟩
    { self with widget := self.widget.send_message msg }
  else self

/-- Embeds `Popup::open` (popup.rs lines 175-184). -/
def Popup.openUp (self : Popup) : Popup :=
  if !self.is_open then
    let self := { self with widget := self.widget.invalidate_layout }
    let msg : UiMessage :=
      ⟨UiMessageData.Popup PopupMessage.Open, self.widget.handle, false⟩
    { self with widget := self.widget.send_message msg }
  else self

/-- Embeds `Popup::set_placement` (popup.rs lines 197-207). -/
def Popup.set_placement (self : Popup) (placement : Placement) : Popup :=
  if self.placement ≠ placement then
    let self := { self with placement := placement }
    let self := { self with widget := self.widget.invalidate_layout }
    let msg : UiMessage :=
      ⟨UiMessageData.Popup (PopupMessage.Placement placement), self.widget.handle, false⟩
    { self with widget := self.widget.send_message msg }
  else self

/-- Embeds `Popup::handle_os_event` (popup.rs lines 162-171).  The UI manager is only
read here; the sole effect is the possible `self.close()` call on the popup. -/
def Popup.handle_os_event (self : Popup) (self_handle : Nat)
    (ui : UserInterface) (event : OsEvent) : Popup :=
  match event with
  | OsEvent.MouseInput state =>
    if state = ButtonState.Pressed ∧
        ui.top_picking_restriction = self_handle ∧ self.is_open then
      let pos := ui.cursor_position
      if !(self.widget.screen_bounds.contains pos.x pos.y) && !self.stays_open then
        self.close
      else self
    else self
  | OsEvent.Other => self

/-- Configuration record of `WidgetBuilder` (external collaborator): only the
options the popup builder uses (children, visibility — default visible). -/
structure WidgetBuilder where
  children : List Nat
  visibility : Bool
deriving DecidableEq, Repr

/-- Embeds `WidgetBuilder::new`. -/
def WidgetBuilder.new : WidgetBuilder := { children := [], visibility := true }

/-- Embeds `WidgetBuilder::with_child`. -/
def WidgetBuilder.with_child (b : WidgetBuilder) (child : Nat) : WidgetBuilder :=
  { b with children := b.children ++ [child] }

/-- Embeds `WidgetBuilder::with_visibility`. -/
def WidgetBuilder.with_visibility (b : WidgetBuilder) (value : Bool) : WidgetBuilder :=
  { b with visibility := value }

/-- Embeds `WidgetBuilder::build(sender)`: the fresh widget record; its handle is
assigned later by `UserInterface::add_node`. -/
def WidgetBuilder.build (b : WidgetBuilder) : Widget :=
  { handle := Handle.NONE
    visibility := b.visibility
    actual_size := ⟨0, 0⟩
    desired_local_position := ⟨0, 0⟩
    screen_bounds := ⟨0, 0, 0, 0⟩
    layout_valid := true
    children := b.children
    trace := [] }

/-- Embeds `BorderBuilder` (external collaborator): wraps a widget builder. -/
structure BorderBuilder where
  widget_builder : WidgetBuilder
deriving DecidableEq, Repr

/-- Embeds `BorderBuilder::new`. -/
def BorderBuilder.new (widget_builder : WidgetBuilder) : BorderBuilder :=
  ⟨widget_builder⟩

/-- Embeds `BorderBuilder::build(ui)`: registers a border node wrapping the builder's
(single) child and returns its fresh handle. -/
def BorderBuilder.build (b : BorderBuilder) (ui : UserInterface) :
    Nat × UserInterface :=
  let h := ui.next_handle
  let child := b.widget_builder.children.headD Handle.NONE
  (h, { ui with next_handle := ui.next_handle + 1
                nodes := ui.nodes ++ [(h, UINode.Border child)]
                trace := ui.trace ++ [UiOp.AddBorderNode h child] })

/-- Embeds `UserInterface::add_node` for a popup node: registers it under a fresh
handle and writes that handle into the widget. -/
def UserInterface.add_node (ui : UserInterface) (node : Popup) : Nat × UserInterface :=
  let h := ui.next_handle
  let node := { node with widget := { node.widget with handle := h } }
  (h, { ui with next_handle := ui.next_handle + 1
                nodes := ui.nodes ++ [(h, UINode.Popup node)]
                trace := ui.trace ++ [UiOp.AddPopupNode h] })

/-- Embeds `PopupBuilder` (popup.rs lines 210-215). -/
structure PopupBuilder where
  widget_builder : WidgetBuilder
  placement : Placement
  stays_open : Bool
  content : Nat
deriving DecidableEq, Repr

/-- Embeds `PopupBuilder::new` (popup.rs lines 218-225). -/
def PopupBuilder.new (widget_builder : WidgetBuilder) : PopupBuilder :=
  { widget_builder := widget_builder
    placement := Placement.Cursor
    stays_open := false
    content := Handle.NONE }

/-- Embeds `PopupBuilder::with_placement`. -/
def PopupBuilder.with_placement (self : PopupBuilder) (placement : Placement) :
    PopupBuilder :=
  { self with placement := placement }

/-- Embeds `PopupBuilder::with_content`. -/
def PopupBuilder.with_content (self : PopupBuilder) (content : Nat) : PopupBuilder :=
  { self with content := content }

/-- Embeds `PopupBuilder::build` (popup.rs lines 242-264). -/
def PopupBuilder.build (self : PopupBuilder) (ui : UserInterface) :
    Nat × UserInterface :=
  let r := (BorderBuilder.new (WidgetBuilder.new.with_child self.content)).build ui
  let body := r.1
  let ui := r.2
  let popup : Popup :=
    { widget := ((self.widget_builder.with_child body).with_visibility false).build
      placement := self.placement
      stays_open := self.stays_open
      is_open := false
      content := self.content
      body := body }
  let r2 := ui.add_node popup
  let handle := r2.1
  let ui := r2.2
  let ui := ui.flush_messages
  (handle, ui)

/-- Written from the spec's words (§4.1 placement table): desired local
position per placement, from widget size, screen size and cursor position. -/
def placementTable (placement : Placement) (size screen cursor : Vec2) : Vec2 :=
  match placement with
  | Placement.LeftTop => ⟨0, 0⟩
  | Placement.RightTop => ⟨screen.x - size.x, 0⟩
  | Placement.Center => ⟨(screen.x - size.x) / 2, (screen.y - size.y) / 2⟩
  | Placement.LeftBottom => ⟨0, screen.y - size.y⟩
  | Placement.RightBottom => ⟨screen.x - size.x, screen.y - size.y⟩
  | Placement.Cursor => cursor
  | Placement.Position p => p

/-- Is a UI-trace entry a push of some handle onto the restriction stack? -/
def UiOp.isPush : UiOp → Bool
  | UiOp.PushPickingRestriction _ => true
  | _ => false

/-- Is a UI-trace entry a pop of the restriction stack? -/
def UiOp.isPop : UiOp → Bool
  | UiOp.PopPickingRestriction => true
  | _ => false

/-- Is a UI-trace entry a `remove_node` call? -/
def UiOp.isRemove : UiOp → Bool
  | UiOp.RemoveNode _ => true
  | _ => false

/-- Is a UI-trace entry a `link_nodes` call? -/
def UiOp.isLink : UiOp → Bool
  | UiOp.LinkNodes _ _ => true
  | _ => false

/-- Is a UI-trace entry a `release_mouse_capture` call? -/
def UiOp.isRelease : UiOp → Bool
  | UiOp.ReleaseMouseCapture => true
  | _ => false

/-- Is a UI-trace entry a `flush_messages` call? -/
def UiOp.isFlush : UiOp → Bool
  | UiOp.FlushMessages => true
  | _ => false

/-- Number of trace entries satisfying a predicate. -/
def countOps (p : UiOp → Bool) (t : List UiOp) : Nat := (t.filter p).length

/-- The messages a widget trace has sent, in order. -/
def sentMessages (t : List WidgetOp) : List UiMessage :=
  t.filterMap fun op =>
    match op with
    | WidgetOp.SendMessage m => some m
    | _ => none

/-- Characterization of the `PopupMessage::Open` branch of
`Popup::handle_routed_message`: the popup becomes open and visible, a
`TopMost` message is sent, the desired local position is set per the
placement table, and the handle is pushed onto the restriction stack exactly
when `stays_open` is false and the handle is not already the top entry. -/
theorem handle_open_eq (self : Popup) (ui : UserInterface) (message : UiMessage)
    (hdata : message.data = UiMessageData.Popup PopupMessage.Open)
    (hdest : message.destination = self.widget.handle) :
    Popup.handle_routed_message self ui message =
      ({ self with
           is_open := true
           widget := ((self.widget.set_visibility true).send_message
               ⟨UiMessageData.Widget WidgetMessage.TopMost, self.widget.handle,
                 false⟩).set_desired_local_position
               (placementTable self.placement self.widget.actual_size
                 ui.screen_size ui.cursor_position) },
       if self.stays_open = false ∧ ui.top_picking_restriction ≠ self.widget.handle
       then ui.push_picking_restriction self.widget.handle else ui) := by
  unfold Popup.handle_routed_message
  rw [hdata, hdest]
  by_cases hst : self.stays_open <;>
    by_cases htop : ui.top_picking_restriction = self.widget.handle <;>
      cases hp : self.placement <;>
        simp [hst, htop, hp, placementTable, Vec2.sub, Vec2.scale, Vec2.ZERO,
          Widget.set_visibility, Widget.send_message,
          Widget.set_desired_local_position, UserInterface.push_picking_restriction,
          mul_one_div, div_eq_mul_inv]

/-- Characterization of the `PopupMessage::Close` branch: the popup becomes
closed and hidden, the restriction stack is popped exactly when `stays_open`
is false, and capture is released exactly when this popup held it.  Note the
branch is not guarded by `is_open`. -/
theorem handle_close_eq (self : Popup) (ui : UserInterface) (message : UiMessage)
    (hdata : message.data = UiMessageData.Popup PopupMessage.Close)
    (hdest : message.destination = self.widget.handle) :
    Popup.handle_routed_message self ui message =
      ({ self with is_open := false, widget := self.widget.set_visibility false },
       let ui1 := if self.stays_open = false then ui.pop_picking_restriction else ui
       if ui1.captured_node = self.widget.handle then ui1.release_mouse_capture
       else ui1) := by
  unfold Popup.handle_routed_message
  rw [hdata, hdest]
  by_cases hst : self.stays_open <;>
    by_cases hcap : ui.captured_node = self.widget.handle <;>
      simp [hst, hcap, UserInterface.pop_picking_restriction,
        UserInterface.release_mouse_capture, Widget.set_visibility]

/-- Characterization of the `PopupMessage::Content` branch: the old content is
removed from the graph exactly when present, the field is overwritten, and
`link_nodes` is called (unconditionally) with the new content and `body`. -/
theorem handle_content_eq (self : Popup) (ui : UserInterface) (message : UiMessage)
    (content : Nat)
    (hdata : message.data = UiMessageData.Popup (PopupMessage.Content content))
    (hdest : message.destination = self.widget.handle) :
    Popup.handle_routed_message self ui message =
      ({ self with content := content },
       (if Handle.is_some self.content then ui.remove_node self.content
        else ui).link_nodes content self.body) := by
  unfold Popup.handle_routed_message
  rw [hdata, hdest]
  by_cases hc : Handle.is_some self.content <;>
    simp [hc, UserInterface.remove_node, UserInterface.link_nodes]

/-- Characterization of the `PopupMessage::Placement` branch: the field is
overwritten and layout is invalidated. -/
theorem handle_placement_eq (self : Popup) (ui : UserInterface) (message : UiMessage)
    (placement : Placement)
    (hdata : message.data = UiMessageData.Popup (PopupMessage.Placement placement))
    (hdest : message.destination = self.widget.handle) :
    Popup.handle_routed_message self ui message =
      ({ self with placement := placement,
                   widget := self.widget.invalidate_layout }, ui) := by
  unfold Popup.handle_routed_message
  rw [hdata, hdest]
  simp [Widget.invalidate_layout]

/-- Concrete widget for concrete checks: handle 5, actual size 100×50,
screen bounds spanning x ∈ [10,110], y ∈ [10,60]. -/
def exWidget : Widget :=
  { handle := 5
    visibility := true
    actual_size := ⟨100, 50⟩
    desired_local_position := ⟨0, 0⟩
    screen_bounds := ⟨10, 10, 100, 50⟩
    layout_valid := true
    children := [4]
    trace := [] }

/-- Concrete UI manager: screen 800×600, cursor (400,300), empty stack. -/
def exUI : UserInterface :=
  { screen_size := ⟨800, 600⟩
    cursor_position := ⟨400, 300⟩
    picking_stack := []
    captured_node := 0
    next_handle := 10
    nodes := []
    trace := [] }

/-- C1: every Open transition applies exactly the desired local position given
by the §4.1 placement table: LeftTop ↦ (0,0), RightTop ↦ (W−w,0),
Center ↦ ((W−w)/2,(H−h)/2), LeftBottom ↦ (0,H−h), RightBottom ↦ (W−w,H−h),
Cursor ↦ the sampled cursor position, Position(p) ↦ p. -/
theorem C1_open_applies_placement_table (self : Popup) (ui : UserInterface)
    (message : UiMessage)
    (hdata : message.data = UiMessageData.Popup PopupMessage.Open)
    (hdest : message.destination = self.widget.handle) :
    (Popup.handle_routed_message self ui message).1.widget.desired_local_position
      = placementTable self.placement self.widget.actual_size ui.screen_size
          ui.cursor_position := by
  rw [handle_open_eq self ui message hdata hdest]
  simp [Widget.set_desired_local_position]

/-- Concrete RightBottom popup used in the C1 witness. -/
def popupC1 : Popup :=
  { widget := exWidget
    placement := Placement.RightBottom
    stays_open := false
    is_open := false
    content := 3
    body := 4 }

/-- C1 witness: with screen (800,600) and widget (100,50), an Open transition
under RightBottom placement yields desired position (700,550). -/
theorem C1_witness :
    (Popup.handle_routed_message popupC1 exUI
        ⟨UiMessageData.Popup PopupMessage.Open, 5, false⟩).1.widget.desired_local_position
      = ⟨700, 550⟩ := by
  have h := C1_open_applies_placement_table popupC1 exUI
    ⟨UiMessageData.Popup PopupMessage.Open, 5, false⟩ rfl rfl
  rw [h]
  norm_num [placementTable, popupC1, exWidget, exUI]

/-- C10: raw_copy produces a popup node whose stays_open and is_open are false
regardless of the original, with placement, content and body copied unchanged. -/
theorem C10_raw_copy_resets_state (self : Popup) :
    ∃ q : Popup, Popup.raw_copy self = UINode.Popup q ∧
      q.stays_open = false ∧ q.is_open = false ∧
      q.placement = self.placement ∧ q.content = self.content ∧
      q.body = self.body := by
  exact ⟨_, rfl, rfl, rfl, rfl, rfl, rfl⟩

/-- C7: graph-remap fix-up: a body handle absent from the table aborts fatally
(models the `unwrap` panic as `none`); an absent content handle leaves the
content field as it is with no abort; present handles are rewritten. -/
theorem C7_resolve_remap (self : Popup) (node_map : Nat → Option Nat) :
    (node_map self.body = none → Popup.resolve self node_map = none) ∧
    (∀ b, node_map self.body = some b →
      (node_map self.content = none →
        Popup.resolve self node_map = some { self with body := b }) ∧
      (∀ c, node_map self.content = some c →
        Popup.resolve self node_map = some { self with body := b, content := c })) := by
  unfold Popup.resolve
  refine ⟨?_, ?_⟩
  · intro hb
    cases hc : node_map self.content <;> simp [hc, hb]
  · intro b hb
    refine ⟨?_, ?_⟩
    · intro hc
      simp [hc, hb]
    · intro c hc
      simp [hc, hb]

/-- Concrete popup used in the C7 witness: content 3, body 4. -/
def popupC7 : Popup :=
  { widget := exWidget
    placement := Placement.Cursor
    stays_open := false
    is_open := false
    content := 3
    body := 4 }

/-- Remap table for the C7 witness: maps only the body handle 4 to 40. -/
def mapC7 : Nat → Option Nat := fun n => if n = 4 then some 40 else none

/-- C7 witness: content 3 is absent from the table, so it is left unchanged,
while the present body 4 is rewritten to 40, with no abort. -/
theorem C7_witness :
    Popup.resolve popupC7 mapC7 = some { popupC7 with body := 40 } := by
  exact ((C7_resolve_remap popupC7 mapC7).2 40 rfl).1 rfl

/-- Closed popup (is_open false, stays_open false, handle 5) used for C2. -/
def popupC2 : Popup :=
  { widget := exWidget
    placement := Placement.Cursor
    stays_open := false
    is_open := false
    content := 3
    body := 4 }

/-- UI state whose restriction stack holds one entry of another overlay. -/
def uiC2 : UserInterface := { exUI with picking_stack := [9] }

/-- C2 counterexample: delivering a Close message to an already-closed popup
(is_open = false, stays_open = false) still pops the restriction stack — the
handler branch is not guarded by is_open, so it is not a no-op. -/
theorem C2_counterexample :
    popupC2.is_open = false ∧ uiC2.picking_stack = [9] ∧
    (Popup.handle_routed_message popupC2 uiC2
        ⟨UiMessageData.Popup PopupMessage.Close, 5, false⟩).2.picking_stack = [] := by
  refine ⟨rfl, rfl, ?_⟩
  decide

/-- C2 amended: the public close() on an already-closed popup is a no-op (no
message enqueued, no field changed, hence no pop and no capture release can
follow from it); the Close message handler, however, applies its effects
unconditionally: delivered to a closed popup with stays_open false it still
performs exactly one pop of the restriction stack. -/
theorem C2_close_idempotence_amended (self : Popup) (ui : UserInterface)
    (message : UiMessage)
    (hopen : self.is_open = false)
    (hdata : message.data = UiMessageData.Popup PopupMessage.Close)
    (hdest : message.destination = self.widget.handle) :
    Popup.close self = self ∧
    (self.stays_open = false →
      countOps UiOp.isPop (Popup.handle_routed_message self ui message).2.trace =
        countOps UiOp.isPop ui.trace + 1 ∧
      (Popup.handle_routed_message self ui message).2.picking_stack =
        ui.picking_stack.tail) := by
  constructor
  · unfold Popup.close
    simp [hopen]
  · intro hst
    rw [handle_close_eq self ui message hdata hdest]
    by_cases hcap : ui.captured_node = self.widget.handle <;>
      simp [hst, hcap, UserInterface.pop_picking_restriction,
        UserInterface.release_mouse_capture, countOps, List.filter_append,
        UiOp.isPop]

/-- C2 witness: the amended claim at the concrete closed popup: close() leaves
it unchanged, while a delivered Close message empties the one-entry stack. -/
theorem C2_witness :
    Popup.close popupC2 = popupC2 ∧
    (Popup.handle_routed_message popupC2 uiC2
        ⟨UiMessageData.Popup PopupMessage.Close, 5, false⟩).2.picking_stack = [] := by
  have h := C2_close_idempotence_amended popupC2 uiC2
    ⟨UiMessageData.Popup PopupMessage.Close, 5, false⟩ rfl rfl rfl
  exact ⟨h.1, (h.2 rfl).2⟩

/-- Open popup with prior content 7 under body 4 used for C3. -/
def popupC3 : Popup :=
  { widget := exWidget
    placement := Placement.Cursor
    stays_open := false
    is_open := true
    content := 7
    body := 4 }

/-- C3 counterexample: Content(None) does not skip the link operation: after
removing the old content the handler still calls link_nodes, passing the null
handle and body. -/
theorem C3_counterexample :
    Handle.is_some Handle.NONE = false ∧
    (Popup.handle_routed_message popupC3 exUI
        ⟨UiMessageData.Popup (PopupMessage.Content Handle.NONE), 5, false⟩).2.trace =
      [UiOp.RemoveNode 7, UiOp.LinkNodes Handle.NONE 4] := by
  refine ⟨rfl, ?_⟩
  decide

/-- C3 amended: per Content(new) message, the prior content is removed from
the graph exactly once when present and the remove is skipped when absent,
the content field is set to new, and exactly one link_nodes call occurs — but
unconditionally: link_nodes is called with the new content handle and body
even when new is absent (Content(None) removes the old content and passes the
null handle to link_nodes rather than skipping the call). -/
theorem C3_content_reparenting_amended (self : Popup) (ui : UserInterface)
    (message : UiMessage) (content : Nat)
    (hdata : message.data = UiMessageData.Popup (PopupMessage.Content content))
    (hdest : message.destination = self.widget.handle) :
    (Popup.handle_routed_message self ui message).1.content = content ∧
    (Popup.handle_routed_message self ui message).2.trace =
      ui.trace ++
        (if Handle.is_some self.content then [UiOp.RemoveNode self.content] else [])
        ++ [UiOp.LinkNodes content self.body] := by
  rw [handle_content_eq self ui message content hdata hdest]
  by_cases hc : Handle.is_some self.content <;>
    simp [hc, UserInterface.remove_node, UserInterface.link_nodes]

/-- C3 witness: the amended claim at a concrete input: Content(8) on a popup
with prior content 7 removes 7 once, sets the field to 8 and links 8 under
body 4 once. -/
theorem C3_witness :
    (Popup.handle_routed_message popupC3 exUI
        ⟨UiMessageData.Popup (PopupMessage.Content 8), 5, false⟩).1.content = 8 ∧
    (Popup.handle_routed_message popupC3 exUI
        ⟨UiMessageData.Popup (PopupMessage.Content 8), 5, false⟩).2.trace =
      [UiOp.RemoveNode 7, UiOp.LinkNodes 8 4] := by
  have h := C3_content_reparenting_amended popupC3 exUI
    ⟨UiMessageData.Popup (PopupMessage.Content 8), 5, false⟩ 8 rfl rfl
  refine ⟨h.1, ?_⟩
  rw [h.2]
  decide

/-- Already-open popup (handle 5, stays_open false) used for C4. -/
def popupC4 : Popup :=
  { widget := exWidget
    placement := Placement.Cursor
    stays_open := false
    is_open := true
    content := 3
    body := 4 }

/-- UI whose restriction stack already holds handle 5 below another overlay 9. -/
def uiC4 : UserInterface := { exUI with picking_stack := [9, 5] }

/-- UI whose restriction-stack top is this popup's own handle 5. -/
def uiTop5 : UserInterface := { exUI with picking_stack := [5] }

/-- C4 counterexample: processing an Open message for an already-open popup is
not a no-op — when the popup's handle is not the current top of the stack the
handler pushes it a second time. -/
theorem C4_counterexample :
    popupC4.is_open = true ∧ uiC4.picking_stack = [9, 5] ∧
    (Popup.handle_routed_message popupC4 uiC4
        ⟨UiMessageData.Popup PopupMessage.Open, 5, false⟩).2.picking_stack =
      [5, 9, 5] := by
  refine ⟨rfl, rfl, ?_⟩
  decide

/-- C4 amended: open() on an already-open popup enqueues no duplicate Open
message; the Open message handler (which does not itself check is_open) pushes
the handle onto the restriction stack exactly when stays_open is false and the
handle is not already the top entry — so a re-delivered Open causes no second
push while the popup is top of the stack, but does push again when it is not. -/
theorem C4_open_idempotence_amended (self : Popup) (ui : UserInterface)
    (message : UiMessage)
    (hdata : message.data = UiMessageData.Popup PopupMessage.Open)
    (hdest : message.destination = self.widget.handle) :
    (self.is_open = true → Popup.openUp self = self) ∧
    ((self.stays_open = true ∨ ui.top_picking_restriction = self.widget.handle) →
      (Popup.handle_routed_message self ui message).2.picking_stack =
        ui.picking_stack) ∧
    (self.stays_open = false → ui.top_picking_restriction ≠ self.widget.handle →
      (Popup.handle_routed_message self ui message).2.picking_stack =
        self.widget.handle :: ui.picking_stack) := by
  refine ⟨?_, ?_, ?_⟩
  · intro hio
    unfold Popup.openUp
    simp [hio]
  · intro hcase
    rw [handle_open_eq self ui message hdata hdest]
    rcases hcase with hst | htop
    · simp [hst]
    · simp [htop]
  · intro hst htop
    rw [handle_open_eq self ui message hdata hdest]
    simp [hst, htop, UserInterface.push_picking_restriction]

/-- C4 witness: the amended claim at concrete inputs: open() on the open popup
is the identity, and a re-delivered Open while the handle is top of the stack
leaves the stack unchanged. -/
theorem C4_witness :
    Popup.openUp popupC4 = popupC4 ∧
    (Popup.handle_routed_message popupC4 uiTop5
        ⟨UiMessageData.Popup PopupMessage.Open, 5, false⟩).2.picking_stack = [5] := by
  have h := C4_open_idempotence_amended popupC4 uiTop5
    ⟨UiMessageData.Popup PopupMessage.Open, 5, false⟩ rfl rfl
  exact ⟨h.1 rfl, h.2.1 (Or.inr rfl)⟩

/-- Is a UI-trace entry a push of the given handle? -/
def UiOp.isPushOf (h : Nat) : UiOp → Bool
  | UiOp.PushPickingRestriction k => decide (k = h)
  | _ => false

/-- Counting distributes over trace concatenation. -/
theorem countOps_append (p : UiOp → Bool) (s t : List UiOp) :
    countOps p (s ++ t) = countOps p s + countOps p t := by
  simp [countOps, List.filter_append]

/-- C5: across one full open-then-close cycle (an Open message followed by a
Close message, starting with the popup's handle not on top of the stack): with
stays_open false the restriction stack receives exactly one push (of the
popup's handle) and exactly one pop, and its contents are unchanged at the
end; with stays_open true neither transition pushes or pops. -/
theorem C5_cycle_restriction_stack (self : Popup) (ui : UserInterface)
    (mopen mclose : UiMessage)
    (hod : mopen.data = UiMessageData.Popup PopupMessage.Open)
    (hoh : mopen.destination = self.widget.handle)
    (hcd : mclose.data = UiMessageData.Popup PopupMessage.Close)
    (hch : mclose.destination = self.widget.handle) :
    (self.stays_open = false → ui.top_picking_restriction ≠ self.widget.handle →
      countOps (UiOp.isPushOf self.widget.handle)
          (Popup.handle_routed_message (Popup.handle_routed_message self ui mopen).1
            (Popup.handle_routed_message self ui mopen).2 mclose).2.trace =
        countOps (UiOp.isPushOf self.widget.handle) ui.trace + 1 ∧
      countOps UiOp.isPop
          (Popup.handle_routed_message (Popup.handle_routed_message self ui mopen).1
            (Popup.handle_routed_message self ui mopen).2 mclose).2.trace =
        countOps UiOp.isPop ui.trace + 1 ∧
      (Popup.handle_routed_message (Popup.handle_routed_message self ui mopen).1
          (Popup.handle_routed_message self ui mopen).2 mclose).2.picking_stack =
        ui.picking_stack) ∧
    (self.stays_open = true →
      countOps UiOp.isPush
          (Popup.handle_routed_message (Popup.handle_routed_message self ui mopen).1
            (Popup.handle_routed_message self ui mopen).2 mclose).2.trace =
        countOps UiOp.isPush ui.trace ∧
      countOps UiOp.isPop
          (Popup.handle_routed_message (Popup.handle_routed_message self ui mopen).1
            (Popup.handle_routed_message self ui mopen).2 mclose).2.trace =
        countOps UiOp.isPop ui.trace ∧
      (Popup.handle_routed_message (Popup.handle_routed_message self ui mopen).1
          (Popup.handle_routed_message self ui mopen).2 mclose).2.picking_stack =
        ui.picking_stack) := by
  have h1 := handle_open_eq self ui mopen hod hoh
  have hh : (Popup.handle_routed_message self ui mopen).1.widget.handle
      = self.widget.handle := by
    rw [h1]
    simp [Widget.set_visibility, Widget.send_message,
      Widget.set_desired_local_position]
  have h2 := handle_close_eq (Popup.handle_routed_message self ui mopen).1
    (Popup.handle_routed_message self ui mopen).2 mclose hcd (hch.trans hh.symm)
  rw [h2, h1]
  constructor
  · intro hst htop
    by_cases hcap : ui.captured_node = self.widget.handle <;>
      simp [hst, htop, hcap, UserInterface.push_picking_restriction,
        UserInterface.pop_picking_restriction, UserInterface.release_mouse_capture,
        Widget.set_visibility, Widget.send_message, Widget.set_desired_local_position,
        countOps, List.filter_append, UiOp.isPushOf, UiOp.isPop]
  · intro hst
    by_cases hcap : ui.captured_node = self.widget.handle <;>
      simp [hst, hcap, UserInterface.pop_picking_restriction,
        UserInterface.release_mouse_capture,
        Widget.set_visibility, Widget.send_message, Widget.set_desired_local_position,
        countOps, List.filter_append, UiOp.isPush, UiOp.isPop]

/-- Closed popup (stays_open false, handle 5) for the C5 witness cycle. -/
def popupC5 : Popup :=
  { widget := exWidget
    placement := Placement.LeftTop
    stays_open := false
    is_open := false
    content := 3
    body := 4 }

/-- UI for the C5 witness: another overlay 9 is top of the stack. -/
def uiC5 : UserInterface := { exUI with picking_stack := [9] }

/-- C5 witness: the concrete cycle Open-then-Close on a fresh trace performs
exactly one push of handle 5 and one pop, and restores the stack to [9]. -/
theorem C5_witness :
    countOps (UiOp.isPushOf popupC5.widget.handle)
        (Popup.handle_routed_message
          (Popup.handle_routed_message popupC5 uiC5
            ⟨UiMessageData.Popup PopupMessage.Open, 5, false⟩).1
          (Popup.handle_routed_message popupC5 uiC5
            ⟨UiMessageData.Popup PopupMessage.Open, 5, false⟩).2
          ⟨UiMessageData.Popup PopupMessage.Close, 5, false⟩).2.trace =
      countOps (UiOp.isPushOf popupC5.widget.handle) uiC5.trace + 1 ∧
    countOps UiOp.isPop
        (Popup.handle_routed_message
          (Popup.handle_routed_message popupC5 uiC5
            ⟨UiMessageData.Popup PopupMessage.Open, 5, false⟩).1
          (Popup.handle_routed_message popupC5 uiC5
            ⟨UiMessageData.Popup PopupMessage.Open, 5, false⟩).2
          ⟨UiMessageData.Popup PopupMessage.Close, 5, false⟩).2.trace =
      countOps UiOp.isPop uiC5.trace + 1 ∧
    (Popup.handle_routed_message
        (Popup.handle_routed_message popupC5 uiC5
          ⟨UiMessageData.Popup PopupMessage.Open, 5, false⟩).1
        (Popup.handle_routed_message popupC5 uiC5
          ⟨UiMessageData.Popup PopupMessage.Open, 5, false⟩).2
        ⟨UiMessageData.Popup PopupMessage.Close, 5, false⟩).2.picking_stack =
      uiC5.picking_stack := by
  exact (C5_cycle_restriction_stack popupC5 uiC5
    ⟨UiMessageData.Popup PopupMessage.Open, 5, false⟩
    ⟨UiMessageData.Popup PopupMessage.Close, 5, false⟩
    rfl rfl rfl rfl).1 rfl (by decide)

/-- C6: on a raw OS pointer event, the outside-click interception invokes
close() — whose sole effect here is enqueuing one Close message addressed to
the popup, no synchronous open/visibility state change — if and only if the
event is a button press, the popup's handle is the current top of the
restriction stack, is_open is true, stays_open is false, and the press
position lies outside the widget's screen-space bounding rectangle. -/
theorem C6_outside_click_dismissal (self : Popup) (ui : UserInterface)
    (event : OsEvent) :
    (sentMessages (Popup.handle_os_event self self.widget.handle ui
          event).widget.trace =
        sentMessages self.widget.trace ++
          [⟨UiMessageData.Popup PopupMessage.Close, self.widget.handle, false⟩]
      ↔ (event = OsEvent.MouseInput ButtonState.Pressed ∧
         ui.top_picking_restriction = self.widget.handle ∧
         self.is_open = true ∧ self.stays_open = false ∧
         self.widget.screen_bounds.contains ui.cursor_position.x
           ui.cursor_position.y = false)) ∧
    (Popup.handle_os_event self self.widget.handle ui event).is_open =
      self.is_open ∧
    (Popup.handle_os_event self self.widget.handle ui event).widget.visibility =
      self.widget.visibility ∧
    (Popup.handle_os_event self self.widget.handle ui event).placement =
      self.placement ∧
    (Popup.handle_os_event self self.widget.handle ui event).content =
      self.content := by
  cases event with
  | Other => simp [Popup.handle_os_event]
  | MouseInput state =>
    cases state with
    | Released => simp [Popup.handle_os_event]
    | Pressed =>
      unfold Popup.handle_os_event
      by_cases htop : ui.top_picking_restriction = self.widget.handle <;>
        by_cases hio : self.is_open = true <;>
          by_cases hst : self.stays_open = true <;>
            by_cases hcont : self.widget.screen_bounds.contains
                ui.cursor_position.x ui.cursor_position.y = true <;>
              simp [htop, hio, hst, hcont, Popup.close, Widget.invalidate_layout,
                Widget.send_message, sentMessages, List.filterMap_append]

/-- C8: the builder defaults are placement = Cursor, stays_open = false,
content = none; and build registers a border body node wrapping the supplied
content, then the popup itself — hidden, closed, with body among its widget's
children and the configured placement/stays_open/content — and finally
performs one message-queue flush, the last operation before returning. -/
theorem C8_builder_defaults_and_build (wb : WidgetBuilder) (self : PopupBuilder)
    (ui : UserInterface) :
    (PopupBuilder.new wb).placement = Placement.Cursor ∧
    (PopupBuilder.new wb).stays_open = false ∧
    (PopupBuilder.new wb).content = Handle.NONE ∧
    (∃ p : Popup,
      (PopupBuilder.build self ui).2.nodes =
        ui.nodes ++ [(p.body, UINode.Border self.content),
                     ((PopupBuilder.build self ui).1, UINode.Popup p)] ∧
      p.is_open = false ∧
      p.widget.visibility = false ∧
      p.body ∈ p.widget.children ∧
      p.content = self.content ∧
      p.placement = self.placement ∧
      p.stays_open = self.stays_open ∧
      (PopupBuilder.build self ui).2.trace =
        ui.trace ++ [UiOp.AddBorderNode p.body self.content,
                     UiOp.AddPopupNode (PopupBuilder.build self ui).1,
                     UiOp.FlushMessages]) := by
  refine ⟨rfl, rfl, rfl, ?_⟩
  refine ⟨{ widget :=
              { (((self.widget_builder.with_child
                    ui.next_handle).with_visibility false).build) with
                  handle := ui.next_handle + 1 }
            placement := self.placement
            stays_open := self.stays_open
            is_open := false
            content := self.content
            body := ui.next_handle }, ?_, rfl, rfl, ?_, rfl, rfl, rfl, ?_⟩
  · simp [PopupBuilder.build, BorderBuilder.build, BorderBuilder.new,
      UserInterface.add_node, UserInterface.flush_messages, WidgetBuilder.new,
      WidgetBuilder.with_child, WidgetBuilder.with_visibility, WidgetBuilder.build]
  · simp [WidgetBuilder.with_child, WidgetBuilder.with_visibility,
      WidgetBuilder.build]
  · simp [PopupBuilder.build, BorderBuilder.build, BorderBuilder.new,
      UserInterface.add_node, UserInterface.flush_messages, WidgetBuilder.new,
      WidgetBuilder.with_child, WidgetBuilder.with_visibility, WidgetBuilder.build]

/-- C9: set_placement(p) is a no-op (no field change, no layout invalidation,
no message) when p equals the current placement; when it differs it overwrites
the field and invalidates layout before enqueuing the Placement message.
open() and close() likewise enqueue nothing when the requested transition
would not change state, and otherwise invalidate layout synchronously before
enqueuing their message. -/
theorem C9_setters_guarded (self : Popup) (placement : Placement) :
    (self.placement = placement → Popup.set_placement self placement = self) ∧
    (self.placement ≠ placement →
      Popup.set_placement self placement =
        { self with
            placement := placement
            widget :=
              { self.widget with
                  layout_valid := false
                  trace := self.widget.trace ++
                    [WidgetOp.InvalidateLayout,
                     WidgetOp.SendMessage
                       ⟨UiMessageData.Popup (PopupMessage.Placement placement),
                         self.widget.handle, false⟩] } }) ∧
    (self.is_open = true → Popup.openUp self = self) ∧
    (self.is_open = false →
      Popup.openUp self =
        { self with
            widget :=
              { self.widget with
                  layout_valid := false
                  trace := self.widget.trace ++
                    [WidgetOp.InvalidateLayout,
                     WidgetOp.SendMessage
                       ⟨UiMessageData.Popup PopupMessage.Open,
                         self.widget.handle, false⟩] } }) ∧
    (self.is_open = false → Popup.close self = self) ∧
    (self.is_open = true →
      Popup.close self =
        { self with
            widget :=
              { self.widget with
                  layout_valid := false
                  trace := self.widget.trace ++
                    [WidgetOp.InvalidateLayout,
                     WidgetOp.SendMessage
                       ⟨UiMessageData.Popup PopupMessage.Close,
                         self.widget.handle, false⟩] } }) := by
  refine ⟨?_, ?_, ?_, ?_, ?_, ?_⟩
  · intro h
    unfold Popup.set_placement
    simp [h]
  · intro h
    unfold Popup.set_placement
    simp [h, Widget.invalidate_layout, Widget.send_message]
  · intro h
    unfold Popup.openUp
    simp [h]
  · intro h
    unfold Popup.openUp
    simp [h, Widget.invalidate_layout, Widget.send_message]
  · intro h
    unfold Popup.close
    simp [h]
  · intro h
    unfold Popup.close
    simp [h, Widget.invalidate_layout, Widget.send_message]

/-- Open popup with Cursor placement used for the C9 witness. -/
def popupC9 : Popup :=
  { widget := exWidget
    placement := Placement.Cursor
    stays_open := false
    is_open := false
    content := 3
    body := 4 }

/-- C9 witness: setting a different placement overwrites the field and records
the layout invalidation before the enqueued Placement message; setting the
same placement is the identity. -/
theorem C9_witness :
    Popup.set_placement popupC9 Placement.Cursor = popupC9 ∧
    (Popup.set_placement popupC9 Placement.LeftTop).placement =
      Placement.LeftTop ∧
    (Popup.set_placement popupC9 Placement.LeftTop).widget.trace =
      [WidgetOp.InvalidateLayout,
       WidgetOp.SendMessage
         ⟨UiMessageData.Popup (PopupMessage.Placement Placement.LeftTop), 5,
           false⟩] := by
  have h1 := (C9_setters_guarded popupC9 Placement.Cursor).1 rfl
  have h2 := (C9_setters_guarded popupC9 Placement.LeftTop).2.1 (by decide)
  refine ⟨h1, ?_, ?_⟩ <;> (rw [h2]; try decide)
